import Mathlib

/-!
# lin-cli dashboard: shallow embedding of `cmd/root.go` and `internal/git/branch.go`

The dashboard is a bubbletea program.  Its state (`model`) is translated to a
record, the methods `updatePane`, `GetSelectedIssue`, `HandleMsg`, `Update`,
`updateList`, `updateIssueView`, `refresh` and the start-up code of
`rootCmd.Run` to functions on it.  Package-level style variables that the
code mutates are carried in `Globals`.  Everything the code calls but that is
not part of the two source files (widget `Update` functions, the markdown
renderer, the data source, the git repository) is a field of `Env`, so every
theorem holds for every behaviour of those collaborators.

Go `int` values are `Int`; the resize arithmetic, whose operands are the
fields of a message, wraps at 64 bits (`goSub`).  Side effects (opened URLs, text written to
standard output) are returned as a list, `os.Exit` and run-time panics are
constructors of `Result`.
-/

namespace LinCli

/-! ## Styling values

`lipgloss` is a library: its style type and setters are not part of the source
files.  They are modelled as a record of the properties the program sets, a
setter overwriting its property. -/

/-- A `lipgloss.Color`: the colour string. -/
abbrev Color := String

/-- The border shapes this program uses. -/
inductive Border where
  | NormalBorder
  | RoundedBorder
  | HiddenBorder
deriving DecidableEq, Repr

/-- A `lipgloss.Style`, restricted to the properties `cmd/root.go` sets on the
styles it keeps in variables; an unset property is `none`. -/
structure Style where
  foreground : Option Color
  borderStyle : Option Border
  borderTop : Option Bool
  borderRight : Option Bool
  borderBottom : Option Bool
  borderLeft : Option Bool
  borderTopForeground : Option Color
  borderRightForeground : Option Color
  borderBottomForeground : Option Color
  borderLeftForeground : Option Color
  marginTop : Option Int
  marginRight : Option Int
  marginBottom : Option Int
  marginLeft : Option Int
  paddingRight : Option Int
  width : Option Int
  maxWidth : Option Int
deriving DecidableEq, Repr

/-- The style `lipgloss.NewStyle()`: nothing set. -/
def NewStyle : Style :=
  { foreground := none, borderStyle := none,
    borderTop := none, borderRight := none, borderBottom := none, borderLeft := none,
    borderTopForeground := none, borderRightForeground := none,
    borderBottomForeground := none, borderLeftForeground := none,
    marginTop := none, marginRight := none, marginBottom := none, marginLeft := none,
    paddingRight := none, width := none, maxWidth := none }

/-- The setter `Style.Foreground(c)`. -/
def Style.Foreground (s : Style) (c : Color) : Style :=
  { s with foreground := some c }

/-- The setter `Style.BorderLeftForeground(c)`. -/
def Style.BorderLeftForeground (s : Style) (c : Color) : Style :=
  { s with borderLeftForeground := some c }

/-- The setter `Style.BorderForeground(c)` with one colour: all four sides. -/
def Style.BorderForeground (s : Style) (c : Color) : Style :=
  { s with borderTopForeground := some c, borderRightForeground := some c,
           borderBottomForeground := some c, borderLeftForeground := some c }

/-- The setter `Style.BorderStyle(b)`: the shape only. -/
def Style.BorderStyle (s : Style) (b : Border) : Style :=
  { s with borderStyle := some b }

/-- The setter `Style.Border(b)` without side arguments: the shape, all four
sides switched on. -/
def Style.Border (s : Style) (b : Border) : Style :=
  { s with borderStyle := some b, borderTop := some true, borderRight := some true,
           borderBottom := some true, borderLeft := some true }

/-- The setter `Style.Margin(v, h)` with two arguments: top and bottom `v`,
left and right `h`. -/
def Style.Margin (s : Style) (v h : Int) : Style :=
  { s with marginTop := some v, marginRight := some h,
           marginBottom := some v, marginLeft := some h }

/-- The setter `Style.PaddingRight(n)`. -/
def Style.PaddingRight (s : Style) (n : Int) : Style :=
  { s with paddingRight := some n }

/-- The setter `Style.Width(n)`. -/
def Style.Width (s : Style) (n : Int) : Style :=
  { s with width := some n }

/-- The setter `Style.MaxWidth(n)`. -/
def Style.MaxWidth (s : Style) (n : Int) : Style :=
  { s with maxWidth := some n }

/-- The variable `issueViewWidth` (root.go line 28). -/
def issueViewWidth : Int := 65

/-- The variable `listStyle` (root.go lines 29-32). -/
def listStyle : Style :=
  ((NewStyle.Border Border.HiddenBorder).Margin 2 2).Width (100 - issueViewWidth)

/-- The variable `contentStyle` (root.go lines 34-37). -/
def contentStyle : Style :=
  ((NewStyle.BorderStyle Border.RoundedBorder).BorderForeground "0").PaddingRight 2

/-- The style fields of the package-level `delegate` that the code assigns. -/
structure DelegateStyles where
  SelectedTitle : Style
  SelectedDesc : Style
  NormalDesc : Style
deriving DecidableEq, Repr

/-- The package-level variables the code mutates: `delegate.Styles` and
`selectedItemStyle`. -/
structure Globals where
  delegate : DelegateStyles
  selectedItemStyle : Style
deriving DecidableEq, Repr

/-! ## Items, widgets and the dashboard state

The list, viewport and key-binding types come from the `bubbles` library and
are not part of the source files; the records below hold the state that the
accessors called by `cmd/root.go` read and write. -/

/-- One linked artifact of an issue (an element of `issue.Attachments`). -/
structure Attachment where
  Url : String
deriving DecidableEq, Repr

/-- Modelled from the spec: the type `linear.Issue` (package `internal/linear`)
is not under src.  The record has the fields `cmd/root.go` reads, which are the
parts of the Item of spec section 3: identity, title, description, canonical
URL, suggested branch name and the ordered linked artifacts. -/
structure LinearIssue where
  Identifier : String
  Title : String
  Description : String
  Url : String
  BranchName : String
  Attachments : List Attachment
deriving DecidableEq, Repr

/-- The value `&linear.Issue{}`: every field at its zero value. -/
def LinearIssue.zero : LinearIssue :=
  { Identifier := "", Title := "", Description := "", Url := "", BranchName := "",
    Attachments := [] }

/-- The list entry type `Issue` (root.go lines 53-55). -/
structure Issue where
  data : LinearIssue
deriving DecidableEq, Repr

/-- The method `Issue.Title` (root.go line 57). -/
def Issue.Title (i : Issue) : String := i.data.Identifier

/-- The method `Issue.Description` (root.go line 58). -/
def Issue.Description (i : Issue) : String := i.data.Title

/-- The method `Issue.FilterValue` (root.go line 59). -/
def Issue.FilterValue (i : Issue) : String := i.Title ++ i.Description

/-- Modelled from the spec: the List Browser widget (`list.Model` of the
bubbles library) is not under src.  The record holds what the accessors used
by `cmd/root.go` observe (spec sections 3 and 4.2): the item collection, the
visible (post-filter) entries, the cursor index into the visible entries,
whether the filter is being edited, and the size last set. -/
structure ListModel where
  items : List Issue
  visible : List Issue
  index : Int
  settingFilter : Bool
  width : Int
  height : Int
deriving DecidableEq, Repr

/-- The library accessor `list.Model.Index`: the cursor index. -/
def ListModel.Index (l : ListModel) : Int := l.index

/-- The library accessor `list.Model.VisibleItems`: the post-filter entries. -/
def ListModel.VisibleItems (l : ListModel) : List Issue := l.visible

/-- The library accessor `list.Model.SettingFilter`: whether the filter is being
edited. -/
def ListModel.SettingFilter (l : ListModel) : Bool := l.settingFilter

/-- The library method `list.Model.SetSize`: records the two dimensions as
given. -/
def ListModel.SetSize (l : ListModel) (width height : Int) : ListModel :=
  { l with width := width, height := height }

/-- Indexing a Go slice: `none` stands for the index-out-of-range panic. -/
def sliceGet {α : Type} (xs : List α) (i : Int) : Option α :=
  if i < 0 then none else xs.get? i.toNat

/-- Modelled from the spec: `list.Model.SelectedItem` is not under src.  It is
the visible entry under the cursor, and nil (`none`) when the cursor is not a
valid index into the visible entries, in particular when there are none
(spec section 4.2). -/
def ListModel.SelectedItem (l : ListModel) : Option Issue :=
  if l.Index < 0 ∨ l.VisibleItems.length = 0 ∨ (l.VisibleItems.length : Int) ≤ l.Index then none
  else sliceGet l.VisibleItems l.Index

/-- The widget `list.New([]list.Item{}, itemDelegate{}, 0, 0)`. -/
def ListModel.New : ListModel :=
  { items := [], visible := [], index := 0, settingFilter := false, width := 0, height := 0 }

/-- The Content Viewer (`viewport.Model`): the fields the code reads or writes,
the content last set and the scroll offset. -/
structure Viewport where
  Width : Int
  Height : Int
  YOffset : Int
  content : String
  Style : Style
deriving DecidableEq, Repr

/-- The widget `viewport.New(width, height)`. -/
def Viewport.New (width height : Int) : Viewport :=
  { Width := width, Height := height, YOffset := 0, content := "", Style := NewStyle }

/-- The library method `viewport.Model.SetContent`: stores the text (spec
section 4.3). -/
def Viewport.SetContent (v : Viewport) (s : String) : Viewport :=
  { v with content := s }

/-- The library method `viewport.Model.GotoTop`: scroll offset zero (spec
section 4.3). -/
def Viewport.GotoTop (v : Viewport) : Viewport :=
  { v with YOffset := 0 }

/-- Modelled from the spec: `pulls.PullsModel` (package `cmd/root/pulls`) is not
under src.  Spec section 4.4: the Overlay Selector holds a candidate list and
an active flag (the field `Selecting` that `cmd/root.go` reads and writes) and
its own cursor. -/
structure PullsModel where
  Selecting : Bool
  candidates : List Attachment
  cursor : Int
deriving DecidableEq, Repr

/-- Modelled from the spec: `pulls.PullsModel.UpdateList` is not under src.  It
hands the overlay its candidate sequence (spec section 4.4), the cursor
starting at the first candidate (spec section 8, second example). -/
def PullsModel.UpdateList (p : PullsModel) (attachments : List Attachment) : PullsModel :=
  { p with candidates := attachments, cursor := 0 }

/-- Modelled from the spec: `pulls.PullsModel.Init` is not under src; the
overlay starts inactive with no candidates (spec section 3, OverlayState). -/
def PullsModel.Init : PullsModel :=
  { Selecting := false, candidates := [], cursor := 0 }

/-- A key binding (`key.Binding`): its key names and whether it is disabled. -/
structure Binding where
  keys : List String
  disabled : Bool
deriving DecidableEq, Repr

/-- Modelled from the spec: `tui.KeyMap` (package `internal/tui`) is not under
src.  The record has the seven bindings `HandleMsg` dispatches on, the fixed
keyboard surface of spec section 6. -/
structure KeyMap where
  P : Binding
  Tab : Binding
  Up : Binding
  Down : Binding
  C : Binding
  CtrlR : Binding
  Enter : Binding
deriving DecidableEq, Repr

/-- The library test `key.Matches(msg, b)`: the binding is enabled and lists
the key. -/
def Matches (k : String) (b : Binding) : Bool :=
  !b.disabled && b.keys.contains k

/-- The type `pane` (root.go lines 45-50). -/
inductive pane where
  | listPane
  | contentPane
deriving DecidableEq, Repr

/-- A bubbletea message: a key press (by key name), a terminal resize, or any
other message (cursor blink, filter results, ...). -/
inductive Msg where
  | KeyMsg (k : String)
  | WindowSizeMsg (Width Height : Int)
  | Other (tag : Nat)
deriving DecidableEq, Repr

/-- A bubbletea command: `tea.Quit`, or some other command handed back by a
widget. -/
inductive Cmd where
  | Quit
  | Widget (tag : Nat)
deriving DecidableEq, Repr

/-- An observable side effect: `util.OpenURL(url)` or text written to standard
output. -/
inductive Effect where
  | OpenURL (url : String)
  | Printf (text : String)
deriving DecidableEq, Repr

/-- The dashboard state `model` (root.go lines 119-134).  The fields `help`
and `gqlClient` take no part in the transitions and are left out; the data
source behind `gqlClient` is `Env.GetIssues`. -/
structure model where
  list : ListModel
  issueView : Viewport
  pulls : PullsModel
  keys : KeyMap
  activePane : pane
  loading : Bool
deriving DecidableEq, Repr

/-! ## `internal/git/branch.go` -/

/-- The checkout request `git.CheckoutOptions` as `CheckoutBranch` fills it. -/
structure CheckoutOptions where
  Branch : String
  Create : Bool
  Keep : Bool
deriving DecidableEq, Repr

/-- What the git collaborator answers to each call `CheckoutBranch` makes.  An
error is its message; `Short` is `ReferenceName.Short` on a reference name. -/
structure GitEnv where
  Getwd : Except String String
  PlainOpen : String → Option String
  Branches : Except String (List String)
  ForEachErr : Option String
  Short : String → String
  Worktree : Option String
  Checkout : CheckoutOptions → Option String

/-- How a call of `CheckoutBranch` ends: it returns (an error or nil) or the
process exits. -/
inductive CheckoutEnd where
  | returned (err : Option String)
  | exited (code : Int)
deriving DecidableEq, Repr

/-- A run of `CheckoutBranch`: how it ended, what it printed, and the request
it passed to `Worktree.Checkout`, if it got that far. -/
structure CheckoutRun where
  outcome : CheckoutEnd
  printed : List String
  request : Option CheckoutOptions
deriving DecidableEq, Repr

/-- The loop `refs.ForEach` of `CheckoutBranch` (branch.go lines 28-34). -/
def branchExists (short : String → String) (refs : List String) (branchName : String) : Bool :=
  refs.foldl (fun found ref => if short ref = branchName then true else found) false

/-- The function `CheckoutBranch` (branch.go lines 11-59). -/
def CheckoutBranch (G : GitEnv) (branchName : String) : CheckoutRun :=
  match G.Getwd with
  | .error e =>
    { outcome := .returned (some ("Error getting current working directory: " ++ e ++ "\n")),
      printed := [], request := none }
  | .ok cwd =>
    match G.PlainOpen cwd with
    | some e =>
      { outcome := .returned (some ("Error opening repository: " ++ e ++ "\n")),
        printed := [], request := none }
    | none =>
      match G.Branches with
      | .error e =>
        { outcome := .returned (some ("Error getting branches: " ++ e ++ "\n")),
          printed := [], request := none }
      | .ok refs =>
        let found := branchExists G.Short refs branchName
        match G.ForEachErr with
        | some e =>
          { outcome := .returned (some ("Error checking branch existence: " ++ e ++ "\n")),
            printed := [], request := none }
        | none =>
          match G.Worktree with
          | some e =>
            { outcome := .exited 1,
              printed := ["Error getting worktree: " ++ e ++ "\n"], request := none }
          | none =>
            let opts : CheckoutOptions :=
              { Branch := "refs/heads/" ++ branchName, Create := !found, Keep := true }
            match G.Checkout opts with
            | some e =>
              { outcome := .exited 1,
                printed := ["Error checking out branch: " ++ e ++ "\n"], request := some opts }
            | none =>
              { outcome := .returned none,
                printed := ["Checked out branch \x27" ++ branchName ++ "\x27\n"],
                request := some opts }

/-! ## `cmd/root.go` -/

/-- The collaborators of the dashboard that are not part of the two source
files.  `listUpdate`, `listSetItems` and `viewportUpdate` are the methods
`Update` and `SetItems` of the library widgets, `pullsUpdate` is
`pulls.PullsModel.Update` (with the effects it performs), `NewTermRenderer` is
the markdown renderer for a wrap width (construction and rendering may each
fail), `GetFrameSize` is `lipgloss.Style.GetFrameSize`, `GetIssues` is the
answer of `linear.GetIssues`, `git` the repository `CheckoutBranch` works on,
`LinearPurple` the colour `styles.LinearPurple`, `Keys` the key map `tui.Keys`
and `DefaultStyles` the styles of `list.NewDefaultDelegate()`. -/
structure Env where
  LinearPurple : Color
  Keys : KeyMap
  DefaultStyles : DelegateStyles
  listUpdate : Msg → ListModel → ListModel × Option Cmd
  listSetItems : List Issue → ListModel → ListModel × Option Cmd
  viewportUpdate : Msg → Viewport → Viewport × Option Cmd
  pullsUpdate : Msg → PullsModel → PullsModel × Option Cmd × List Effect
  NewTermRenderer : Int → Except String (String → Except String String)
  GetFrameSize : Style → Int × Int
  GetIssues : List LinearIssue × Option String
  git : GitEnv

/-- How a transition ends: normally with a value, by `os.Exit` (with what was
printed before), or by a run-time panic. -/
inductive Result (α : Type) where
  | ok (a : α)
  | exit (code : Int) (fx : List Effect)
  | panic
deriving DecidableEq, Repr

/-- What a transition of the dashboard yields: the new state, the new values
of the package-level variables, the command handed to the run loop and the
side effects performed, in order. -/
structure Out where
  m : model
  g : Globals
  cmd : Option Cmd
  fx : List Effect
deriving DecidableEq, Repr

/-- The method `model.updatePane` (root.go lines 140-160). -/
def updatePane (E : Env) (g : Globals) (m : model) : model × Globals :=
  if m.activePane = pane.contentPane then
    let m1 := { m with activePane := pane.listPane }
    let m2 := { m1 with issueView := { m1.issueView with Style := contentStyle } }
    let t := (g.delegate.SelectedTitle.Foreground E.LinearPurple).BorderLeftForeground
      E.LinearPurple
    (m2, { g with delegate := { g.delegate with SelectedTitle := t, SelectedDesc := t } })
  else
    let m1 := { m with activePane := pane.contentPane }
    let m2 := { m1 with issueView := { m1.issueView with
      Style := (NewStyle.BorderStyle Border.RoundedBorder).BorderForeground E.LinearPurple } }
    let t := (g.selectedItemStyle.Foreground "0").BorderLeftForeground "0"
    (m2, { g with delegate := { g.delegate with SelectedTitle := t, SelectedDesc := t } })

/-- The method `model.GetSelectedIssue` (root.go lines 162-169). -/
def model.GetSelectedIssue (m : model) : LinearIssue :=
  match m.list.SelectedItem with
  | none => LinearIssue.zero
  | some selectedItem => selectedItem.data

/-- The function `issuesToItems` (root.go lines 279-289). -/
def issuesToItems (issues : List LinearIssue) : List Issue :=
  issues.foldl (fun items issue => items ++ [{ data := issue }]) []

/-- The method `model.updateList` (root.go lines 291-293). -/
def updateList (E : Env) (m : model) (issues : List LinearIssue) : model × Option Cmd :=
  let r := E.listSetItems (issuesToItems issues) m.list
  ({ m with list := r.1 }, r.2)

/-- The method `model.updateIssueView` (root.go lines 295-314): the new state
and the error it returns. -/
def updateIssueView (E : Env) (m : model) (issue : LinearIssue) : model × Option String :=
  match E.NewTermRenderer (m.issueView.Width - 2) with
  | .error err => (m, some err)
  | .ok renderer =>
    let content := "# " ++ issue.Title ++ "\n\n" ++ issue.Description
    match renderer content with
    | .error err => (m, some err)
    | .ok str => ({ m with issueView := (m.issueView.SetContent str).GotoTop }, none)

/-- The method `model.refresh` (root.go lines 316-333): the new state, the
command it returns and what it printed. -/
def refresh (E : Env) (m : model) : model × Option Cmd × List Effect :=
  let fetched := E.GetIssues
  let fx : List Effect :=
    match fetched.2 with
    | some err => [Effect.Printf ("Error retrieving issues: " ++ err)]
    | none => []
  let issues := fetched.1
  let r := updateList E m issues
  match issues with
  | [] => (r.1, r.2, fx)
  | first :: _ => ((updateIssueView E r.1 first).1, r.2, fx)

/-- A Go `int` result on a 64-bit platform: the value reduced to the
two-complement range from `-2^63` to `2^63 - 1`. -/
def wrapInt64 (x : Int) : Int :=
  (x + 9223372036854775808) % 18446744073709551616 - 9223372036854775808

/-- The subtraction `a - b` of Go `int` values: it wraps at 64 bits. -/
def goSub (a b : Int) : Int := wrapInt64 (a - b)

/-- The remainder `a % b` of Go: truncated, and a panic (`none`) for `b = 0`. -/
def goRem (a b : Int) : Option Int :=
  if b = 0 then none else some (a.tmod b)

/-- The method `model.HandleMsg` (root.go lines 171-252). -/
def HandleMsg (E : Env) (g : Globals) (m : model) (msg : Msg) : Result Out :=
  let issue := m.GetSelectedIssue
  match msg with
  | .KeyMsg k =>
    if Matches k m.keys.P then
      let attachments := issue.Attachments
      if attachments.length = 1 then
        match sliceGet attachments 0 with
        | none => .panic
        | some a => .ok { m := m, g := g, cmd := none, fx := [Effect.OpenURL a.Url] }
      else
        let p := m.pulls.UpdateList attachments
        .ok { m := { m with pulls := { p with Selecting := true } }, g := g, cmd := none,
              fx := [] }
    else if Matches k m.keys.Tab then
      let r := updatePane E g m
      .ok { m := r.1, g := r.2, cmd := none, fx := [] }
    else if Matches k m.keys.Up then
      if m.activePane = pane.contentPane then
        let r := E.viewportUpdate msg m.issueView
        .ok { m := { m with issueView := r.1 }, g := g, cmd := r.2, fx := [] }
      else
        let idx := m.list.Index
        let items := m.list.VisibleItems
        if idx = 0 ∨ items.length = 0 then
          .ok { m := m, g := g, cmd := none, fx := [] }
        else
          match goRem (idx - 1) items.length with
          | none => .panic
          | some nextIdx =>
            match sliceGet items nextIdx with
            | none => .panic
            | some nextItem =>
              .ok { m := (updateIssueView E m nextItem.data).1, g := g, cmd := none, fx := [] }
    else if Matches k m.keys.Down then
      if m.activePane = pane.contentPane then
        let r := E.viewportUpdate msg m.issueView
        .ok { m := { m with issueView := r.1 }, g := g, cmd := r.2, fx := [] }
      else
        let idx := m.list.Index
        let items := m.list.VisibleItems
        if idx = (items.length : Int) - 1 ∨ items.length = 0 then
          .ok { m := m, g := g, cmd := none, fx := [] }
        else
          match goRem (idx + 1) items.length with
          | none => .panic
          | some nextIdx =>
            match sliceGet items nextIdx with
            | none => .panic
            | some nextItem =>
              .ok { m := (updateIssueView E m nextItem.data).1, g := g, cmd := none, fx := [] }
    else if Matches k m.keys.C then
      if m.list.SettingFilter then
        .ok { m := m, g := g, cmd := none, fx := [] }
      else
        let run := CheckoutBranch E.git issue.BranchName
        let printed := run.printed.map Effect.Printf
        match run.outcome with
        | .exited code => .exit code printed
        | .returned (some err) =>
          .ok { m := m, g := g, cmd := some Cmd.Quit, fx := printed ++ [Effect.Printf err] }
        | .returned none =>
          .ok { m := m, g := g, cmd := some Cmd.Quit, fx := printed }
    else if Matches k m.keys.CtrlR then
      let r := refresh E m
      .ok { m := r.1, g := g, cmd := r.2.1, fx := r.2.2 }
    else if Matches k m.keys.Enter then
      if m.list.SettingFilter then
        .ok { m := m, g := g, cmd := none, fx := [] }
      else
        .ok { m := m, g := g, cmd := none, fx := [Effect.OpenURL issue.Url] }
    else
      .ok { m := m, g := g, cmd := none, fx := [] }
  | .WindowSizeMsg Width Height =>
    let frame := E.GetFrameSize listStyle
    .ok { m := { m with list := m.list.SetSize (goSub Width frame.1)
                                  (goSub (goSub Height frame.2) 2) },
          g := g, cmd := none, fx := [] }
  | .Other _ => .ok { m := m, g := g, cmd := none, fx := [] }

/-- The last step of `model.Update` (root.go lines 270-276): the focused pane
gets the message; the result of `issueView.Update` is dropped, the command of
`list.Update` replaces the one held so far. -/
def forwardToPane (E : Env) (msg : Msg) (o : Out) : Out :=
  if o.m.activePane = pane.contentPane then o
  else
    let r := E.listUpdate msg o.m.list
    { o with m := { o.m with list := r.1 }, cmd := r.2 }

/-- The method `model.Update` (root.go lines 254-277). -/
def Update (E : Env) (g : Globals) (m : model) (msg : Msg) : Result Out :=
  if m.pulls.Selecting then
    let r := E.pullsUpdate msg m.pulls
    .ok { m := { m with pulls := r.1 }, g := g, cmd := r.2.1, fx := r.2.2 }
  else if !m.list.SettingFilter then
    match HandleMsg E g m msg with
    | .ok o => .ok (forwardToPane E msg o)
    | .exit code fx => .exit code fx
    | .panic => .panic
  else
    let issue := m.GetSelectedIssue
    let m1 := (updateIssueView E m issue).1
    .ok (forwardToPane E msg { m := m1, g := g, cmd := none, fx := [] })

/-- The package-level variables after the assignments of `rootCmd.Run`
(root.go lines 367-374). -/
def initGlobals (E : Env) : Globals :=
  let t := (E.DefaultStyles.SelectedTitle.Foreground E.LinearPurple).BorderLeftForeground
    E.LinearPurple
  { delegate := { SelectedTitle := t, SelectedDesc := t,
                  NormalDesc := E.DefaultStyles.NormalDesc.MaxWidth 30 },
    selectedItemStyle := t }

/-- The state built by `rootCmd.Run` (root.go lines 376-390) before any data is
loaded into it. -/
def initModel (E : Env) (needRefresh : Bool) : model :=
  let m : model :=
    { list := ListModel.New, issueView := Viewport.New issueViewWidth 50,
      pulls := PullsModel.Init, keys := E.Keys, activePane := pane.listPane,
      loading := needRefresh }
  { m with issueView := { m.issueView with Style := contentStyle } }

/-- The start-up of `rootCmd.Run` (root.go lines 362-408) once the cache has been
read: `issues` and `needRefresh` are what `linear.LoadIssues` returned.  The
result is the state handed to the run loop, with the package-level variables
and what was printed. -/
def Run (E : Env) (issues : List LinearIssue) (needRefresh : Bool) :
    model × Globals × List Effect :=
  let g := initGlobals E
  let m0 := initModel E needRefresh
  let m1 :=
    match issues with
    | [] => m0
    | first :: _ => (updateIssueView E (updateList E m0 issues).1 first).1
  if needRefresh ∨ issues.length = 0 then
    let r := refresh E m1
    (r.1, g, r.2.2)
  else (m1, g, [])

/-- The state after `n` Toggle-Pane actions (`updatePane`) in a row. -/
def toggles (E : Env) : Nat → model × Globals → model × Globals
  | 0, s => s
  | n + 1, s => let r := toggles E n s; updatePane E r.2 r.1

/-! ## Sample collaborators and states used to instantiate the theorems -/

/-- Modelled from the spec: the key map `tui.Keys` is not under src; these are
the chords of spec section 6. -/
def sampleKeys : KeyMap :=
  { P := { keys := ["p"], disabled := false },
    Tab := { keys := ["tab"], disabled := false },
    Up := { keys := ["up"], disabled := false },
    Down := { keys := ["down"], disabled := false },
    C := { keys := ["c"], disabled := false },
    CtrlR := { keys := ["ctrl+r"], disabled := false },
    Enter := { keys := ["enter"], disabled := false } }

/-- A List Browser step for the examples: the cancel key ends filter editing,
clears the filter (every item visible again) and puts the cursor on the first
entry; every other message leaves the list as it is. -/
def sampleListUpdate (msg : Msg) (l : ListModel) : ListModel × Option Cmd :=
  if msg = Msg.KeyMsg "esc" ∧ l.settingFilter = true then
    ({ l with visible := l.items, settingFilter := false, index := 0 }, none)
  else (l, none)

/-- Modelled from the spec: `list.Model.SetItems` for the examples replaces the
whole collection and resets the selection to the first entry (spec section
4.2). -/
def sampleListSetItems (items : List Issue) (l : ListModel) : ListModel × Option Cmd :=
  ({ l with items := items, visible := items, index := 0 }, none)

/-- A frame size for the examples: margins and right padding, plus one cell
for each border side that is switched on. -/
def sampleFrameSize (s : Style) : Int × Int :=
  let side (b : Option Bool) : Int := if b = some true ∧ s.borderStyle ≠ none then 1 else 0
  (s.marginLeft.getD 0 + s.marginRight.getD 0 + s.paddingRight.getD 0
      + side s.borderLeft + side s.borderRight,
   s.marginTop.getD 0 + s.marginBottom.getD 0 + side s.borderTop + side s.borderBottom)

/-- A repository for the examples: branches `main` and `feat-2` exist, every
call succeeds. -/
def sampleGit : GitEnv :=
  { Getwd := .ok "/repo",
    PlainOpen := fun _ => none,
    Branches := .ok ["refs/heads/main", "refs/heads/feat-2"],
    ForEachErr := none,
    Short := fun name => name.drop 11,
    Worktree := none,
    Checkout := fun _ => none }

/-- The working directory of `sampleGit` when it is not a git repository:
opening it fails. -/
def failingGit : GitEnv :=
  { sampleGit with PlainOpen := fun _ => some "repository does not exist" }

/-- Collaborators for the examples: the renderer returns its input, the
viewport and the overlay ignore every message, the data source fails. -/
def sampleEnv : Env :=
  { LinearPurple := "#5e6ad2",
    Keys := sampleKeys,
    DefaultStyles := { SelectedTitle := NewStyle, SelectedDesc := NewStyle, NormalDesc := NewStyle },
    listUpdate := sampleListUpdate,
    listSetItems := sampleListSetItems,
    viewportUpdate := fun _ v => (v, none),
    pullsUpdate := fun _ p => (p, none, []),
    NewTermRenderer := fun _ => .ok (fun content => .ok content),
    GetFrameSize := sampleFrameSize,
    GetIssues := ([], some "timeout"),
    git := sampleGit }

/-- The collaborators of `sampleEnv` with the repository `failingGit`. -/
def failingGitEnv : Env :=
  { sampleEnv with git := failingGit }

/-- Item A of the first example of spec section 8: no linked artifacts. -/
def issueA : LinearIssue :=
  { Identifier := "LIN-1", Title := "Fix bug", Description := "It crashes", Url := "urlA",
    BranchName := "fix-1", Attachments := [] }

/-- Item B of the first example of spec section 8: one linked artifact. -/
def issueB : LinearIssue :=
  { Identifier := "LIN-2", Title := "Add feature", Description := "More", Url := "urlB",
    BranchName := "feat-2", Attachments := [{ Url := "url1" }] }

/-- Item C of the second example of spec section 8: three linked artifacts. -/
def issueC : LinearIssue :=
  { Identifier := "LIN-3", Title := "Review", Description := "Three pulls", Url := "urlC",
    BranchName := "rev-3",
    Attachments := [{ Url := "u1" }, { Url := "u2" }, { Url := "u3" }] }

/-- A dashboard state showing `issues` unfiltered with the cursor on entry
`index`, list focused, overlay inactive, content viewer still empty. -/
def sampleModel (issues : List LinearIssue) (index : Int) : model :=
  let m := initModel sampleEnv false
  { m with list := { m.list with items := issuesToItems issues,
                                 visible := issuesToItems issues, index := index } }

/-- The state and package-level variables that `rootCmd.Run` hands to the run
loop. -/
def startState (E : Env) (issues : List LinearIssue) (needRefresh : Bool) : model × Globals :=
  ((Run E issues needRefresh).1, (Run E issues needRefresh).2.1)

/-- A dashboard state in filter-edit mode: items A and B, of which the filter
leaves only B visible, the cursor on it, and the content viewer showing B. -/
def filteringModel : model :=
  let m := sampleModel [issueA, issueB] 0
  (updateIssueView sampleEnv
    { m with list := { m.list with visible := issuesToItems [issueB], settingFilter := true } }
    issueB).1

/-- The dashboard showing A and B with the cursor on B and the content pane
focused. -/
def contentFocusedModel : model :=
  { sampleModel [issueA, issueB] 1 with activePane := pane.contentPane }

/-- The dashboard showing A and B with the cursor on B and the content viewer
showing B. -/
def browsingModel : model :=
  (updateIssueView sampleEnv (sampleModel [issueA, issueB] 1) issueB).1

/-- A dashboard state with the overlay active: C selected, its three linked
artifacts as candidates. -/
def overlayModel : model :=
  let m := sampleModel [issueC] 0
  { m with pulls := { Selecting := true, candidates := issueC.Attachments, cursor := 0 } }

/-- The package-level variables of the examples: those of start-up. -/
def sampleGlobals : Globals := initGlobals sampleEnv

end LinCli

namespace LinCli

/-! ## CheckoutBranch -/

/-- The loop over the branches finds the name exactly when some branch has it
as its short name. -/
theorem branchExists_eq_any (short : String → String) (refs : List String) (b : String) :
    branchExists short refs b = refs.any (fun ref => decide (short ref = b)) := by
  unfold branchExists
  suffices h : ∀ (acc : Bool),
      refs.foldl (fun found ref => if short ref = b then true else found) acc
        = (acc || refs.any (fun ref => decide (short ref = b))) by
    simpa using h false
  induction refs with
  | nil => intro acc; simp
  | cons r rs ih =>
    intro acc
    simp only [List.foldl_cons, List.any_cons, ih]
    by_cases h : short r = b <;> simp [h]

/-- C9: whenever `CheckoutBranch` gets as far as the checkout (working
directory, repository, branch listing and worktree all obtained), the request
it issues targets `refs/heads/<branchName>`, has `Create = true` exactly when
no existing local branch has the short name `branchName`, and has
`Keep = true`. -/
theorem CheckoutBranch_request (G : GitEnv) (branchName cwd : String) (refs : List String)
    (hwd : G.Getwd = .ok cwd) (hopen : G.PlainOpen cwd = none)
    (hrefs : G.Branches = .ok refs) (hiter : G.ForEachErr = none)
    (hwt : G.Worktree = none) :
    ∃ opts, (CheckoutBranch G branchName).request = some opts
      ∧ opts.Branch = "refs/heads/" ++ branchName
      ∧ (opts.Create = true ↔ ∀ ref ∈ refs, G.Short ref ≠ branchName)
      ∧ (opts.Create = false ↔ ∃ ref ∈ refs, G.Short ref = branchName)
      ∧ opts.Keep = true := by
  refine ⟨{ Branch := "refs/heads/" ++ branchName,
            Create := !(branchExists G.Short refs branchName), Keep := true }, ?_, rfl, ?_, ?_, rfl⟩
  · unfold CheckoutBranch
    simp only [hwd, hopen, hrefs, hiter, hwt]
    cases G.Checkout _ <;> rfl
  · simp [branchExists_eq_any]
  · simp [branchExists_eq_any]

/-- C9, instantiated: in a repository with branches `main` and `feat-2`,
checking out `feat-2` does not create it, checking out `fix-1` does. -/
theorem CheckoutBranch_request_witness :
    (∃ opts, (CheckoutBranch sampleGit "fix-1").request = some opts
      ∧ opts.Branch = "refs/heads/" ++ "fix-1"
      ∧ (opts.Create = true ↔
          ∀ ref ∈ ["refs/heads/main", "refs/heads/feat-2"], sampleGit.Short ref ≠ "fix-1")
      ∧ (opts.Create = false ↔
          ∃ ref ∈ ["refs/heads/main", "refs/heads/feat-2"], sampleGit.Short ref = "fix-1")
      ∧ opts.Keep = true)
    ∧ (CheckoutBranch sampleGit "fix-1").request
        = some { Branch := "refs/heads/fix-1", Create := true, Keep := true }
    ∧ (CheckoutBranch sampleGit "feat-2").request
        = some { Branch := "refs/heads/feat-2", Create := false, Keep := true } :=
  ⟨CheckoutBranch_request sampleGit "fix-1" "/repo" ["refs/heads/main", "refs/heads/feat-2"]
      rfl rfl rfl rfl rfl, by decide, by decide⟩

/-! ## The checkout key -/

/-- C1 fails as stated: with the second entry (branch `feat-2`) selected, the
content pane focused and a working directory that is not a git repository,
`CheckoutBranch` returns the failure as an error, `HandleMsg` on the key `c`
prints it and still returns the quit command, and `Update` hands that quit
command to the run loop. -/
theorem HandleMsg_failed_checkout_quits :
    (CheckoutBranch failingGit "feat-2").outcome
        = CheckoutEnd.returned (some "Error opening repository: repository does not exist\n")
    ∧ contentFocusedModel.pulls.Selecting = false
    ∧ contentFocusedModel.list.SettingFilter = false
    ∧ HandleMsg failingGitEnv sampleGlobals contentFocusedModel (Msg.KeyMsg "c")
        = Result.ok { m := contentFocusedModel, g := sampleGlobals,
                      cmd := some Cmd.Quit,
                      fx := [Effect.Printf
                              "Error opening repository: repository does not exist\n"] }
    ∧ Update failingGitEnv sampleGlobals contentFocusedModel (Msg.KeyMsg "c")
        = Result.ok { m := contentFocusedModel, g := sampleGlobals,
                      cmd := some Cmd.Quit,
                      fx := [Effect.Printf
                              "Error opening repository: repository does not exist\n"] } := by
  refine ⟨?_, ?_, ?_, ?_, ?_⟩ <;> decide

/-- C1 as amended: outside overlay and filter-edit mode, when the key is
dispatched to the checkout case and `CheckoutBranch` returns (with an error or
with nil), `HandleMsg` leaves the model unchanged, prints the returned error
if there is one after what `CheckoutBranch` printed, and returns the quit
command in both cases; with the content pane focused `Update` returns that
same result, quit command included. -/
theorem HandleMsg_checkout_returns_quit (E : Env) (g : Globals) (m : model) (k : String)
    (err : Option String)
    (hP : Matches k m.keys.P = false) (hTab : Matches k m.keys.Tab = false)
    (hUp : Matches k m.keys.Up = false) (hDown : Matches k m.keys.Down = false)
    (hC : Matches k m.keys.C = true) (hfilter : m.list.SettingFilter = false)
    (hoverlay : m.pulls.Selecting = false)
    (hret : (CheckoutBranch E.git m.GetSelectedIssue.BranchName).outcome
        = CheckoutEnd.returned err) :
    HandleMsg E g m (Msg.KeyMsg k)
      = Result.ok { m := m, g := g, cmd := some Cmd.Quit,
                    fx := (CheckoutBranch E.git m.GetSelectedIssue.BranchName).printed.map
                            Effect.Printf
                          ++ err.toList.map Effect.Printf }
    ∧ (m.activePane = pane.contentPane →
        Update E g m (Msg.KeyMsg k)
          = Result.ok { m := m, g := g, cmd := some Cmd.Quit,
                        fx := (CheckoutBranch E.git m.GetSelectedIssue.BranchName).printed.map
                                Effect.Printf
                              ++ err.toList.map Effect.Printf }) := by
  have h : HandleMsg E g m (Msg.KeyMsg k)
      = Result.ok { m := m, g := g, cmd := some Cmd.Quit,
                    fx := (CheckoutBranch E.git m.GetSelectedIssue.BranchName).printed.map
                            Effect.Printf
                          ++ err.toList.map Effect.Printf } := by
    unfold HandleMsg
    simp only [hP, hTab, hUp, hDown, hC, hfilter, hret, if_true, if_false, Bool.false_eq_true]
    cases err <;> simp
  refine ⟨h, fun hpane => ?_⟩
  unfold Update
  simp [hoverlay, hfilter, h, forwardToPane, hpane]

/-- C1 as amended, instantiated: outside a git repository, with the content
pane focused, the key `c` prints the returned error and both `HandleMsg` and
`Update` end in the quit command. -/
theorem HandleMsg_checkout_returns_quit_witness :
    HandleMsg failingGitEnv sampleGlobals contentFocusedModel (Msg.KeyMsg "c")
        = Result.ok { m := contentFocusedModel, g := sampleGlobals,
                      cmd := some Cmd.Quit,
                      fx := [Effect.Printf
                              "Error opening repository: repository does not exist\n"] }
    ∧ Update failingGitEnv sampleGlobals contentFocusedModel (Msg.KeyMsg "c")
        = Result.ok { m := contentFocusedModel, g := sampleGlobals,
                      cmd := some Cmd.Quit,
                      fx := [Effect.Printf
                              "Error opening repository: repository does not exist\n"] } :=
  have h := HandleMsg_checkout_returns_quit failingGitEnv sampleGlobals contentFocusedModel
      "c" (some "Error opening repository: repository does not exist\n")
      (by decide) (by decide) (by decide) (by decide) (by decide) (by decide) (by decide)
      (by decide)
  ⟨h.1, h.2 (by decide)⟩

/-! ## Refresh -/

/-- The content viewer update touches nothing but the content viewer. -/
theorem updateIssueView_frame (E : Env) (m : model) (issue : LinearIssue) :
    (updateIssueView E m issue).1.list = m.list
    ∧ (updateIssueView E m issue).1.pulls = m.pulls
    ∧ (updateIssueView E m issue).1.keys = m.keys
    ∧ (updateIssueView E m issue).1.activePane = m.activePane
    ∧ (updateIssueView E m issue).1.loading = m.loading
    ∧ (updateIssueView E m issue).1.issueView.Style = m.issueView.Style
    ∧ (updateIssueView E m issue).1.issueView.Width = m.issueView.Width := by
  unfold updateIssueView
  cases E.NewTermRenderer (m.issueView.Width - 2) with
  | error err => simp
  | ok renderer =>
    dsimp only
    cases renderer ("# " ++ issue.Title ++ "\n\n" ++ issue.Description) with
    | error err => simp
    | ok str => simp [Viewport.SetContent, Viewport.GotoTop]

/-- Whatever the data source answers, error or not, `refresh` hands the
collection it returned to `SetItems`. -/
theorem refresh_list_always_replaced (E : Env) (m : model) :
    (refresh E m).1.list = (E.listSetItems (issuesToItems E.GetIssues.1) m.list).1 := by
  unfold refresh updateList
  dsimp only
  split
  · rfl
  · exact (updateIssueView_frame E _ _).1

/-- C2, the code at the failing input: the list shows A and B with the cursor
on B, the content viewer shows B, the data source fails and returns no
issues; after `Ctrl-R` the error has been printed, the list is empty with
nothing selected, and the content viewer still shows B. -/
theorem HandleMsg_failed_refresh_clears_list :
    sampleEnv.GetIssues = ([], some "timeout")
    ∧ browsingModel.list.items = [{ data := issueA }, { data := issueB }]
    ∧ browsingModel.list.SelectedItem = some { data := issueB }
    ∧ HandleMsg sampleEnv sampleGlobals browsingModel (Msg.KeyMsg "ctrl+r")
        = Result.ok { m := { browsingModel with list := (sampleModel [] 0).list },
                      g := sampleGlobals, cmd := none,
                      fx := [Effect.Printf "Error retrieving issues: timeout"] }
    ∧ (sampleModel [] 0).list.items = []
    ∧ (sampleModel [] 0).list.SelectedItem = none
    ∧ browsingModel.issueView.content = "# Add feature\n\nMore" := by
  refine ⟨rfl, ?_, ?_, ?_, rfl, ?_, ?_⟩ <;> decide

/-! ## Open-Links -/

/-- C3, the code at the failing input: with entry A (no linked artifacts)
selected, `p` makes the overlay active with an empty candidate list; the same
happens on an empty list, where the selected issue is the zero value. -/
theorem HandleMsg_open_links_without_artifacts :
    (sampleModel [issueA, issueB] 0).GetSelectedIssue = issueA
    ∧ HandleMsg sampleEnv sampleGlobals (sampleModel [issueA, issueB] 0) (Msg.KeyMsg "p")
        = Result.ok { m := { sampleModel [issueA, issueB] 0 with
                              pulls := { Selecting := true, candidates := [], cursor := 0 } },
                      g := sampleGlobals, cmd := none, fx := [] }
    ∧ (sampleModel [] 0).GetSelectedIssue = LinearIssue.zero
    ∧ HandleMsg sampleEnv sampleGlobals (sampleModel [] 0) (Msg.KeyMsg "p")
        = Result.ok { m := { sampleModel [] 0 with
                              pulls := { Selecting := true, candidates := [], cursor := 0 } },
                      g := sampleGlobals, cmd := none, fx := [] } := by
  refine ⟨?_, ?_, ?_, ?_⟩ <;> decide

/-- C4: when the key is dispatched to the Open-Links case with the overlay
inactive, an issue with exactly one linked artifact has that URL opened and
the model (so the inactive overlay) unchanged, and an issue with two or more
has no URL opened and the overlay made active, its candidates being the
artifact sequence of the issue, all of them in order. -/
theorem HandleMsg_open_links (E : Env) (g : Globals) (m : model) (k : String)
    (hP : Matches k m.keys.P = true) (hoverlay : m.pulls.Selecting = false) :
    (∀ a, m.GetSelectedIssue.Attachments = [a] →
        ∃ o, HandleMsg E g m (Msg.KeyMsg k) = Result.ok o
          ∧ o.fx = [Effect.OpenURL a.Url]
          ∧ o.m.pulls.Selecting = false
          ∧ o.m = m ∧ o.g = g ∧ o.cmd = none)
    ∧ (2 ≤ m.GetSelectedIssue.Attachments.length →
        ∃ o, HandleMsg E g m (Msg.KeyMsg k) = Result.ok o
          ∧ o.m.pulls.Selecting = true
          ∧ o.m.pulls.candidates = m.GetSelectedIssue.Attachments
          ∧ o.fx = [] ∧ o.cmd = none ∧ o.g = g
          ∧ o.m.list = m.list ∧ o.m.issueView = m.issueView
          ∧ o.m.activePane = m.activePane
          ∧ o.m.pulls = { m.pulls.UpdateList m.GetSelectedIssue.Attachments with
                          Selecting := true }) := by
  constructor
  · intro a ha
    refine ⟨{ m := m, g := g, cmd := none, fx := [Effect.OpenURL a.Url] }, ?_,
      rfl, hoverlay, rfl, rfl, rfl⟩
    unfold HandleMsg
    simp [hP, ha, sliceGet]
  · intro h2
    have hne : ¬ m.GetSelectedIssue.Attachments.length = 1 := by omega
    refine ⟨{ m := { m with pulls :=
                { m.pulls.UpdateList m.GetSelectedIssue.Attachments with Selecting := true } },
              g := g, cmd := none, fx := [] }, ?_, ?_⟩
    · unfold HandleMsg
      simp only [hP, hne, if_true, if_false]
    · simp [PullsModel.UpdateList]

/-- C4, instantiated on the examples of spec section 8: with C selected
(artifacts u1, u2, u3) the overlay becomes active with those three candidates;
with B selected (artifact url1) that URL is opened and no overlay appears. -/
theorem HandleMsg_open_links_witness :
    (∃ o, HandleMsg sampleEnv sampleGlobals (sampleModel [issueC] 0) (Msg.KeyMsg "p")
          = Result.ok o
        ∧ o.m.pulls.Selecting = true
        ∧ o.m.pulls.candidates = [{ Url := "u1" }, { Url := "u2" }, { Url := "u3" }]
        ∧ o.fx = [])
    ∧ (∃ o, HandleMsg sampleEnv sampleGlobals (sampleModel [issueA, issueB] 1) (Msg.KeyMsg "p")
          = Result.ok o
        ∧ o.fx = [Effect.OpenURL "url1"]
        ∧ o.m.pulls.Selecting = false) := by
  refine ⟨?_, ?_⟩
  · obtain ⟨o, ho, hs, hc, hfx, -⟩ :=
      (HandleMsg_open_links sampleEnv sampleGlobals (sampleModel [issueC] 0) "p"
        (by decide) (by decide)).2 (by decide)
    exact ⟨o, ho, hs, by rw [hc]; decide, hfx⟩
  · obtain ⟨o, ho, hfx, hs, -⟩ :=
      (HandleMsg_open_links sampleEnv sampleGlobals (sampleModel [issueA, issueB] 1) "p"
        (by decide) (by decide)).1 { Url := "url1" } (by decide)
    exact ⟨o, ho, hfx, hs⟩

/-! ## Toggle-Pane -/

/-- Loading items into the list touches nothing but the list. -/
theorem updateList_frame (E : Env) (m : model) (issues : List LinearIssue) :
    (updateList E m issues).1.activePane = m.activePane
    ∧ (updateList E m issues).1.issueView = m.issueView := by
  simp [updateList]

/-- A refresh leaves the pane focus and the style of the content viewer as they
were. -/
theorem refresh_frame (E : Env) (m : model) :
    (refresh E m).1.activePane = m.activePane
    ∧ (refresh E m).1.issueView.Style = m.issueView.Style := by
  unfold refresh
  dsimp only
  split
  · exact ⟨(updateList_frame E m _).1, by rw [(updateList_frame E m _).2]⟩
  · obtain ⟨-, -, -, hp, -, hs, -⟩ := updateIssueView_frame E (updateList E m E.GetIssues.1).1 ‹_›
    rw [hp, hs]
    exact ⟨(updateList_frame E m _).1, by rw [(updateList_frame E m _).2]⟩

/-- Start-up leaves the list focused, the content viewer styled with
`contentStyle` and the package-level variables as `initGlobals` set them. -/
theorem startState_spec (E : Env) (issues : List LinearIssue) (needRefresh : Bool) :
    (startState E issues needRefresh).1.activePane = pane.listPane
    ∧ (startState E issues needRefresh).1.issueView.Style = contentStyle
    ∧ (startState E issues needRefresh).2 = initGlobals E := by
  have h1 : ∀ m1 : model, m1.activePane = pane.listPane → m1.issueView.Style = contentStyle →
      (if needRefresh = true ∨ issues.length = 0 then
          ((refresh E m1).1, initGlobals E, (refresh E m1).2.2)
        else (m1, initGlobals E, [])).1.activePane = pane.listPane
      ∧ (if needRefresh = true ∨ issues.length = 0 then
          ((refresh E m1).1, initGlobals E, (refresh E m1).2.2)
        else (m1, initGlobals E, [])).1.issueView.Style = contentStyle
      ∧ (if needRefresh = true ∨ issues.length = 0 then
          ((refresh E m1).1, initGlobals E, (refresh E m1).2.2)
        else (m1, initGlobals E, [])).2.1 = initGlobals E := by
    intro m1 hp hs
    split
    · exact ⟨by rw [(refresh_frame E m1).1]; exact hp, by rw [(refresh_frame E m1).2]; exact hs, rfl⟩
    · exact ⟨hp, hs, rfl⟩
  unfold startState Run
  dsimp only
  apply h1
  · cases issues with
    | nil => rfl
    | cons first rest =>
      dsimp only
      rw [(updateIssueView_frame E _ _).2.2.2.1, (updateList_frame E _ _).1]
      rfl
  · cases issues with
    | nil => rfl
    | cons first rest =>
      dsimp only
      rw [(updateIssueView_frame E _ _).2.2.2.2.2.1, (updateList_frame E _ _).2]
      rfl

/-- One toggle always changes the pane focus. -/
theorem updatePane_flips (E : Env) (g : Globals) (m : model) :
    (updatePane E g m).1.activePane
      = if m.activePane = pane.contentPane then pane.listPane else pane.contentPane := by
  unfold updatePane
  split <;> rfl

/-- Two toggles from a state with the start-up focus and styling give that
state back, package-level variables included. -/
theorem updatePane_twice (E : Env) (m : model)
    (hp : m.activePane = pane.listPane) (hs : m.issueView.Style = contentStyle) :
    updatePane E (updatePane E (initGlobals E) m).2 (updatePane E (initGlobals E) m).1
      = (m, initGlobals E) := by
  obtain ⟨list, ⟨w, h, y, c, st⟩, pulls, keys, ap, loading⟩ := m
  simp only at hp hs
  subst hp hs
  simp [updatePane, initGlobals, Style.Foreground, Style.BorderLeftForeground]

/-- An even number of toggles from the start-up state gives the start-up state
back. -/
theorem toggles_even (E : Env) (issues : List LinearIssue) (needRefresh : Bool) (k : Nat) :
    toggles E (2 * k) (startState E issues needRefresh) = startState E issues needRefresh := by
  induction k with
  | zero => rfl
  | succ k ih =>
    obtain ⟨hp, hs, hg⟩ := startState_spec E issues needRefresh
    have h2 : 2 * (k + 1) = (2 * k + 1) + 1 := by ring
    rw [h2]
    simp only [toggles]
    rw [ih]
    have := updatePane_twice E (startState E issues needRefresh).1 hp hs
    rw [← hg] at this
    exact this

/-- C5: from the start-up state of `rootCmd.Run` (list focused, content
viewer styled with `contentStyle`, selected-title and selected-description
styles equal to `selectedItemStyle`), every toggle changes the focus, after
`2k` toggles the list is focused and after `2k+1` the content pane, and after
`2k` toggles the focus, the content viewer style and the selected-title and
selected-description styles (indeed the whole state) are the original ones. -/
theorem toggles_alternate_and_restore (E : Env) (issues : List LinearIssue)
    (needRefresh : Bool) (k n : Nat) :
    ((startState E issues needRefresh).1.activePane = pane.listPane
      ∧ (startState E issues needRefresh).1.issueView.Style = contentStyle
      ∧ (startState E issues needRefresh).2.delegate.SelectedTitle
          = (startState E issues needRefresh).2.selectedItemStyle
      ∧ (startState E issues needRefresh).2.delegate.SelectedDesc
          = (startState E issues needRefresh).2.selectedItemStyle)
    ∧ (toggles E (n + 1) (startState E issues needRefresh)).1.activePane
        ≠ (toggles E n (startState E issues needRefresh)).1.activePane
    ∧ (toggles E (2 * k) (startState E issues needRefresh)).1.activePane = pane.listPane
    ∧ (toggles E (2 * k + 1) (startState E issues needRefresh)).1.activePane
        = pane.contentPane
    ∧ (toggles E (2 * k) (startState E issues needRefresh)).1.issueView.Style = contentStyle
    ∧ (toggles E (2 * k) (startState E issues needRefresh)).2.delegate.SelectedTitle
        = (startState E issues needRefresh).2.selectedItemStyle
    ∧ (toggles E (2 * k) (startState E issues needRefresh)).2.delegate.SelectedDesc
        = (startState E issues needRefresh).2.selectedItemStyle
    ∧ toggles E (2 * k) (startState E issues needRefresh) = startState E issues needRefresh := by
  obtain ⟨hp, hs, hg⟩ := startState_spec E issues needRefresh
  have hev := toggles_even E issues needRefresh k
  have ht : (startState E issues needRefresh).2.delegate.SelectedTitle
      = (startState E issues needRefresh).2.selectedItemStyle := by rw [hg]; rfl
  have hd : (startState E issues needRefresh).2.delegate.SelectedDesc
      = (startState E issues needRefresh).2.selectedItemStyle := by rw [hg]; rfl
  refine ⟨⟨hp, hs, ht, hd⟩, ?_, ?_, ?_, ?_, ?_, ?_, hev⟩
  · simp only [toggles]
    rw [updatePane_flips]
    split
    · rename_i h; rw [h]; decide
    · rename_i h; exact fun h2 => h h2.symm
  · rw [hev]; exact hp
  · simp only [toggles]
    rw [hev, updatePane_flips, hp]
    decide
  · rw [hev]; exact hs
  · rw [hev]; exact ht
  · rw [hev]; exact hd

/-! ## Move-Up and Move-Down with the list focused -/

/-- Move-Down in the list pane, cursor on visible entry `i` that is not the
last: the remainder is taken without wrapping, the slice access is in range,
and the content viewer is set to entry `i + 1`. -/
theorem HandleMsg_down_inner (E : Env) (g : Globals) (m : model) (k : String) (i : Nat)
    (hpane : m.activePane = pane.listPane)
    (hP : Matches k m.keys.P = false) (hTab : Matches k m.keys.Tab = false)
    (hUp : Matches k m.keys.Up = false) (hDown : Matches k m.keys.Down = true)
    (hidx : m.list.Index = (i : Int)) (hi : i + 1 < m.list.VisibleItems.length) :
    ∃ e, m.list.VisibleItems.get? (i + 1) = some e
      ∧ goRem (m.list.Index + 1) m.list.VisibleItems.length = some ((i : Int) + 1)
      ∧ HandleMsg E g m (Msg.KeyMsg k)
          = Result.ok { m := (updateIssueView E m e.data).1, g := g, cmd := none, fx := [] } := by
  obtain ⟨e, he⟩ : ∃ e, m.list.VisibleItems.get? (i + 1) = some e :=
    ⟨_, List.get?_eq_get hi⟩
  have hrem : goRem (m.list.Index + 1) m.list.VisibleItems.length = some ((i : Int) + 1) := by
    unfold goRem
    rw [hidx, if_neg (by omega)]
    congr 1
    apply Int.tmod_eq_of_lt <;> omega
  have hget : sliceGet m.list.VisibleItems ((i : Int) + 1) = some e := by
    unfold sliceGet
    rw [if_neg (by omega)]
    have : ((i : Int) + 1).toNat = i + 1 := by omega
    rw [this, he]
  refine ⟨e, he, hrem, ?_⟩
  have hne : ¬ ((i : Int) = (m.list.VisibleItems.length : Int) - 1
      ∨ m.list.VisibleItems.length = 0) := by omega
  unfold HandleMsg
  simp only [hP, hTab, hUp, hDown, hpane, if_true, if_false, Bool.false_eq_true,
    reduceCtorEq]
  rw [hidx] at hrem
  simp only [hidx, hne, if_false, hrem, hget]

/-- Move-Up in the list pane, cursor on visible entry `i` that is not the
first: the remainder is taken without wrapping, the slice access is in range,
and the content viewer is set to entry `i - 1`. -/
theorem HandleMsg_up_inner (E : Env) (g : Globals) (m : model) (k : String) (i : Nat)
    (hpane : m.activePane = pane.listPane)
    (hP : Matches k m.keys.P = false) (hTab : Matches k m.keys.Tab = false)
    (hUp : Matches k m.keys.Up = true)
    (hidx : m.list.Index = (i : Int)) (hi : i < m.list.VisibleItems.length) (hpos : 0 < i) :
    ∃ e, m.list.VisibleItems.get? (i - 1) = some e
      ∧ goRem (m.list.Index - 1) m.list.VisibleItems.length = some ((i : Int) - 1)
      ∧ HandleMsg E g m (Msg.KeyMsg k)
          = Result.ok { m := (updateIssueView E m e.data).1, g := g, cmd := none, fx := [] } := by
  have hi1 : i - 1 < m.list.VisibleItems.length := by omega
  obtain ⟨e, he⟩ : ∃ e, m.list.VisibleItems.get? (i - 1) = some e :=
    ⟨_, List.get?_eq_get hi1⟩
  have hrem : goRem (m.list.Index - 1) m.list.VisibleItems.length = some ((i : Int) - 1) := by
    unfold goRem
    rw [hidx, if_neg (by omega)]
    congr 1
    apply Int.tmod_eq_of_lt <;> omega
  have hget : sliceGet m.list.VisibleItems ((i : Int) - 1) = some e := by
    unfold sliceGet
    rw [if_neg (by omega)]
    have : ((i : Int) - 1).toNat = i - 1 := by omega
    rw [this, he]
  refine ⟨e, he, hrem, ?_⟩
  have hne : ¬ ((i : Int) = 0 ∨ m.list.VisibleItems.length = 0) := by omega
  unfold HandleMsg
  simp only [hP, hTab, hUp, hpane, if_true, if_false, Bool.false_eq_true, reduceCtorEq]
  rw [hidx] at hrem
  simp only [hidx, hne, if_false, hrem, hget]

/-- C6: with the list focused, `kd` dispatched to Move-Down and `ku` to
Move-Up.  If no entry is visible both moves change nothing.  If the cursor
is on visible entry `i` (so `0 <= i < n`), Move-Down sets the content viewer
to entry `i + 1` when `i + 1 < n` and changes nothing when `i = n - 1`;
Move-Up sets it to entry `i - 1` when `0 < i` and changes nothing when
`i = 0`; in the two moving cases the remainder equals the unwrapped index,
which lies in `[0, n - 1]`, and the slice access succeeds (no panic). -/
theorem HandleMsg_list_moves_clamped (E : Env) (g : Globals) (m : model) (kd ku : String)
    (hpane : m.activePane = pane.listPane)
    (hdP : Matches kd m.keys.P = false) (hdTab : Matches kd m.keys.Tab = false)
    (hdUp : Matches kd m.keys.Up = false) (hdDown : Matches kd m.keys.Down = true)
    (huP : Matches ku m.keys.P = false) (huTab : Matches ku m.keys.Tab = false)
    (huUp : Matches ku m.keys.Up = true) :
    (m.list.VisibleItems.length = 0 →
        HandleMsg E g m (Msg.KeyMsg kd) = Result.ok { m := m, g := g, cmd := none, fx := [] }
        ∧ HandleMsg E g m (Msg.KeyMsg ku) = Result.ok { m := m, g := g, cmd := none, fx := [] })
    ∧ (∀ i : Nat, m.list.Index = (i : Int) → i < m.list.VisibleItems.length →
        (i + 1 < m.list.VisibleItems.length →
          ∃ e, m.list.VisibleItems.get? (i + 1) = some e
            ∧ goRem (m.list.Index + 1) m.list.VisibleItems.length = some ((i : Int) + 1)
            ∧ (0 : Int) ≤ (i : Int) + 1
            ∧ (i : Int) + 1 ≤ (m.list.VisibleItems.length : Int) - 1
            ∧ HandleMsg E g m (Msg.KeyMsg kd)
                = Result.ok { m := (updateIssueView E m e.data).1, g := g, cmd := none,
                              fx := [] })
        ∧ (i + 1 = m.list.VisibleItems.length →
            HandleMsg E g m (Msg.KeyMsg kd)
              = Result.ok { m := m, g := g, cmd := none, fx := [] })
        ∧ (0 < i →
          ∃ e, m.list.VisibleItems.get? (i - 1) = some e
            ∧ goRem (m.list.Index - 1) m.list.VisibleItems.length = some ((i : Int) - 1)
            ∧ (0 : Int) ≤ (i : Int) - 1
            ∧ (i : Int) - 1 ≤ (m.list.VisibleItems.length : Int) - 1
            ∧ HandleMsg E g m (Msg.KeyMsg ku)
                = Result.ok { m := (updateIssueView E m e.data).1, g := g, cmd := none,
                              fx := [] })
        ∧ (i = 0 →
            HandleMsg E g m (Msg.KeyMsg ku)
              = Result.ok { m := m, g := g, cmd := none, fx := [] })) := by
  refine ⟨fun h0 => ⟨?_, ?_⟩, fun i hidx hi => ⟨fun h1 => ?_, fun hlast => ?_, fun hpos => ?_,
    fun hfirst => ?_⟩⟩
  · unfold HandleMsg
    simp [hdP, hdTab, hdUp, hdDown, hpane, h0]
  · unfold HandleMsg
    simp [huP, huTab, huUp, hpane, h0]
  · obtain ⟨e, he, hrem, hh⟩ := HandleMsg_down_inner E g m kd i hpane hdP hdTab hdUp hdDown hidx h1
    exact ⟨e, he, hrem, by omega, by omega, hh⟩
  · have hl : (i : Int) = (m.list.VisibleItems.length : Int) - 1 := by omega
    unfold HandleMsg
    simp [hdP, hdTab, hdUp, hdDown, hpane, hidx, hl]
  · obtain ⟨e, he, hrem, hh⟩ := HandleMsg_up_inner E g m ku i hpane huP huTab huUp hidx hi hpos
    exact ⟨e, he, hrem, by omega, by omega, hh⟩
  · unfold HandleMsg
    simp [huP, huTab, huUp, hpane, hidx, hfirst]

/-- C6, instantiated: three visible entries A, B, C.  From the middle entry
Move-Down shows C and Move-Up shows A; on an empty list both moves change
nothing. -/
theorem HandleMsg_list_moves_clamped_witness :
    HandleMsg sampleEnv sampleGlobals (sampleModel [issueA, issueB, issueC] 1) (Msg.KeyMsg "down")
      = Result.ok { m := (updateIssueView sampleEnv (sampleModel [issueA, issueB, issueC] 1)
                            issueC).1,
                    g := sampleGlobals, cmd := none, fx := [] }
    ∧ HandleMsg sampleEnv sampleGlobals (sampleModel [issueA, issueB, issueC] 1) (Msg.KeyMsg "up")
      = Result.ok { m := (updateIssueView sampleEnv (sampleModel [issueA, issueB, issueC] 1)
                            issueA).1,
                    g := sampleGlobals, cmd := none, fx := [] }
    ∧ HandleMsg sampleEnv sampleGlobals (sampleModel [] 0) (Msg.KeyMsg "down")
      = Result.ok { m := sampleModel [] 0, g := sampleGlobals, cmd := none, fx := [] }
    ∧ HandleMsg sampleEnv sampleGlobals (sampleModel [] 0) (Msg.KeyMsg "up")
      = Result.ok { m := sampleModel [] 0, g := sampleGlobals, cmd := none, fx := [] } := by
  have h := HandleMsg_list_moves_clamped sampleEnv sampleGlobals
    (sampleModel [issueA, issueB, issueC] 1) "down" "up"
    (by decide) (by decide) (by decide) (by decide) (by decide) (by decide) (by decide)
    (by decide)
  have h0 := HandleMsg_list_moves_clamped sampleEnv sampleGlobals
    (sampleModel [] 0) "down" "up"
    (by decide) (by decide) (by decide) (by decide) (by decide) (by decide) (by decide)
    (by decide)
  obtain ⟨hd, -, hu, -⟩ := h.2 1 (by decide) (by decide)
  obtain ⟨e, he, -, -, -, hdown⟩ := hd (by decide)
  obtain ⟨e2, he2, -, -, -, hup⟩ := hu (by decide)
  have hec : e = { data := issueC } := by
    have : (sampleModel [issueA, issueB, issueC] 1).list.VisibleItems.get? (1 + 1)
        = some { data := issueC } := by decide
    rw [this] at he
    exact (Option.some.inj he).symm
  have hea : e2 = { data := issueA } := by
    have : (sampleModel [issueA, issueB, issueC] 1).list.VisibleItems.get? (1 - 1)
        = some { data := issueA } := by decide
    rw [this] at he2
    exact (Option.some.inj he2).symm
  subst hec hea
  exact ⟨hdown, hup, (h0.1 (by decide)).1, (h0.1 (by decide)).2⟩

/-! ## Resize -/

/-- C7 fails as stated: on a resize to 0 by 0 (width and height both
non-negative), with the frame of `listStyle` being 6 by 6 (margin 2 and a
one-cell border on every side), `HandleMsg` sets the list width to -6 and the
list height to -8. -/
theorem HandleMsg_resize_negative :
    sampleEnv.GetFrameSize listStyle = (6, 6)
    ∧ HandleMsg sampleEnv sampleGlobals (sampleModel [issueA] 0) (Msg.WindowSizeMsg 0 0)
        = Result.ok { m := { sampleModel [issueA] 0 with
                              list := { (sampleModel [issueA] 0).list with
                                        width := -6, height := -8 } },
                      g := sampleGlobals, cmd := none, fx := [] } := by
  constructor <;> decide

/-- A value inside the 64-bit range is not changed by wrapping. -/
theorem wrapInt64_of_inRange (x : Int) (hlo : -9223372036854775808 ≤ x)
    (hhi : x < 9223372036854775808) : wrapInt64 x = x := by
  unfold wrapInt64
  omega

/-- C7 as amended: on a resize to `Width` by `Height`, both non-negative Go
ints, with the frame of `listStyle` non-negative (its height at most the
largest int minus 2), `HandleMsg` sets the list width to `Width` minus the
frame width and the list height to `Height` minus the frame height minus 2,
unclamped, and changes nothing else; the width is non-negative exactly when
`Width` is at least the frame width, the height exactly when `Height` is at
least the frame height plus 2. -/
theorem HandleMsg_resize (E : Env) (g : Globals) (m : model) (Width Height : Int)
    (hW : 0 ≤ Width) (hWmax : Width < 9223372036854775808)
    (hH : 0 ≤ Height) (hHmax : Height < 9223372036854775808)
    (hfw : 0 ≤ (E.GetFrameSize listStyle).1)
    (hfwmax : (E.GetFrameSize listStyle).1 < 9223372036854775808)
    (hfh : 0 ≤ (E.GetFrameSize listStyle).2)
    (hfhmax : (E.GetFrameSize listStyle).2 + 2 < 9223372036854775808) :
    ∃ o, HandleMsg E g m (Msg.WindowSizeMsg Width Height) = Result.ok o
      ∧ o.m.list.width = Width - (E.GetFrameSize listStyle).1
      ∧ o.m.list.height = Height - (E.GetFrameSize listStyle).2 - 2
      ∧ (0 ≤ o.m.list.width ↔ (E.GetFrameSize listStyle).1 ≤ Width)
      ∧ (0 ≤ o.m.list.height ↔ (E.GetFrameSize listStyle).2 + 2 ≤ Height)
      ∧ o.m = { m with list := { m.list with
                  width := Width - (E.GetFrameSize listStyle).1,
                  height := Height - (E.GetFrameSize listStyle).2 - 2 } }
      ∧ o.g = g ∧ o.cmd = none ∧ o.fx = [] := by
  have hw : goSub Width (E.GetFrameSize listStyle).1
      = Width - (E.GetFrameSize listStyle).1 := by
    unfold goSub
    exact wrapInt64_of_inRange _ (by omega) (by omega)
  have hh1 : goSub Height (E.GetFrameSize listStyle).2
      = Height - (E.GetFrameSize listStyle).2 := by
    unfold goSub
    exact wrapInt64_of_inRange _ (by omega) (by omega)
  have hh : goSub (goSub Height (E.GetFrameSize listStyle).2) 2
      = Height - (E.GetFrameSize listStyle).2 - 2 := by
    rw [hh1]
    unfold goSub
    exact wrapInt64_of_inRange _ (by omega) (by omega)
  refine ⟨_, rfl, ?_, ?_, ?_, ?_, ?_, rfl, rfl, rfl⟩
  · simp [ListModel.SetSize, hw]
  · simp [ListModel.SetSize, hh]
  · simp [ListModel.SetSize, hw]
  · simp only [ListModel.SetSize, hh]
    constructor <;> intro h <;> omega
  · simp [ListModel.SetSize, hw, hh]

/-- C7 as amended, instantiated: a terminal of 80 by 24 with the 6 by 6 frame of
`listStyle` gives a list of 74 by 16. -/
theorem HandleMsg_resize_witness :
    ∃ o, HandleMsg sampleEnv sampleGlobals (sampleModel [issueA] 0) (Msg.WindowSizeMsg 80 24)
          = Result.ok o
      ∧ o.m.list.width = 74 ∧ o.m.list.height = 16 := by
  obtain ⟨o, ho, hw, hh, -⟩ :=
    HandleMsg_resize sampleEnv sampleGlobals (sampleModel [issueA] 0) 80 24
      (by decide) (by decide) (by decide) (by decide)
      (by decide) (by decide) (by decide) (by decide)
  refine ⟨o, ho, ?_, ?_⟩
  · rw [hw]; decide
  · rw [hh]; decide

/-! ## Routing in `Update` -/

/-- C8: in a modal mode (overlay active, or filter being edited) `Update`
returns normally with pane focus and package-level variables unchanged.
With the overlay active only the overlay gets the event: list and content
viewer are unchanged, and overlay state, command and effects are those of the
overlay.  With the overlay inactive and the filter being edited `HandleMsg`
is not run: the overlay state is unchanged, nothing is printed or opened, the
content viewer is set from the selected issue, and the list and the command
are those of the list widget when the list is focused and unchanged and
absent when the content pane is focused. -/
theorem Update_modal_gate (E : Env) (g : Globals) (m : model) (msg : Msg)
    (hmode : m.pulls.Selecting = true ∨ m.list.SettingFilter = true) :
    ∃ o, Update E g m msg = Result.ok o
      ∧ o.m.activePane = m.activePane ∧ o.g = g
      ∧ (m.pulls.Selecting = true →
          o.m.list = m.list ∧ o.m.issueView = m.issueView
          ∧ o.m.pulls = (E.pullsUpdate msg m.pulls).1
          ∧ o.cmd = (E.pullsUpdate msg m.pulls).2.1
          ∧ o.fx = (E.pullsUpdate msg m.pulls).2.2)
      ∧ (m.pulls.Selecting = false →
          o.m.pulls = m.pulls ∧ o.fx = []
          ∧ o.m.issueView = (updateIssueView E m m.GetSelectedIssue).1.issueView
          ∧ (m.activePane = pane.contentPane → o.m.list = m.list ∧ o.cmd = none)
          ∧ (m.activePane = pane.listPane →
              o.m.list = (E.listUpdate msg m.list).1
              ∧ o.cmd = (E.listUpdate msg m.list).2)) := by
  by_cases hsel : m.pulls.Selecting = true
  · refine ⟨{ m := { m with pulls := (E.pullsUpdate msg m.pulls).1 }, g := g,
              cmd := (E.pullsUpdate msg m.pulls).2.1, fx := (E.pullsUpdate msg m.pulls).2.2 },
      ?_, rfl, rfl, fun _ => ⟨rfl, rfl, rfl, rfl, rfl⟩, fun h => ?_⟩
    · unfold Update
      simp [hsel]
    · rw [hsel] at h
      exact absurd h (by decide)
  · have hfilter : m.list.SettingFilter = true := hmode.resolve_left hsel
    obtain ⟨hl, hpu, -, hp, -, -, -⟩ := updateIssueView_frame E m m.GetSelectedIssue
    refine ⟨forwardToPane E msg
        { m := (updateIssueView E m m.GetSelectedIssue).1, g := g, cmd := none, fx := [] },
      ?_, ?_, ?_, fun h => absurd h hsel, fun _ => ⟨?_, ?_, ?_, fun hc => ?_, fun hlp => ?_⟩⟩
    · unfold Update
      simp [hsel, hfilter]
    all_goals unfold forwardToPane
    all_goals simp only [hp, hl]
    · split <;> simp [hp]
    · split <;> rfl
    · split <;> simp [hpu]
    · split <;> rfl
    · split <;> rfl
    · simp [hc, hl]
    · simp [hlp]

/-- C8, instantiated: with the overlay active the key `c` reaches only the
overlay, and while the filter is edited the key `c` checks nothing out and
produces no command. -/
theorem Update_modal_gate_witness :
    (∃ o, Update sampleEnv sampleGlobals overlayModel (Msg.KeyMsg "c") = Result.ok o
        ∧ o.m.activePane = overlayModel.activePane
        ∧ o.m.list = overlayModel.list ∧ o.m.issueView = overlayModel.issueView)
    ∧ (∃ o, Update sampleEnv sampleGlobals filteringModel (Msg.KeyMsg "c") = Result.ok o
        ∧ o.m.activePane = filteringModel.activePane
        ∧ o.m.pulls = filteringModel.pulls ∧ o.fx = [] ∧ o.cmd = none) := by
  constructor
  · obtain ⟨o, ho, hp, -, h1, -⟩ :=
      Update_modal_gate sampleEnv sampleGlobals overlayModel (Msg.KeyMsg "c")
        (Or.inl (by decide))
    obtain ⟨hl, hv, -⟩ := h1 (by decide)
    exact ⟨o, ho, hp, hl, hv⟩
  · obtain ⟨o, ho, hp, -, -, h2⟩ :=
      Update_modal_gate sampleEnv sampleGlobals filteringModel (Msg.KeyMsg "c")
        (Or.inr (by decide))
    obtain ⟨hpu, hfx, -, -, hlist⟩ := h2 (by decide)
    refine ⟨o, ho, hp, hpu, hfx, ?_⟩
    rw [(hlist (by decide)).2]
    decide

/-- C10, the code at the failing input: the filter is being edited, only B
is visible and shown in the content viewer; the cancel key makes the list
show every item with the cursor on A, while the content viewer returned by
`Update` still shows B, not the rendering of A. -/
theorem Update_filter_edit_shows_old_selection :
    filteringModel.pulls.Selecting = false
    ∧ filteringModel.list.SettingFilter = true
    ∧ filteringModel.list.SelectedItem = some { data := issueB }
    ∧ ∃ o, Update sampleEnv sampleGlobals filteringModel (Msg.KeyMsg "esc") = Result.ok o
        ∧ o.m.list.SelectedItem = some { data := issueA }
        ∧ o.m.issueView.content = "# Add feature\n\nMore"
        ∧ (updateIssueView sampleEnv o.m o.m.GetSelectedIssue).1.issueView.content
            = "# Fix bug\n\nIt crashes" := by
  refine ⟨by decide, by decide, by decide,
    (forwardToPane sampleEnv (Msg.KeyMsg "esc")
      { m := (updateIssueView sampleEnv filteringModel filteringModel.GetSelectedIssue).1,
        g := sampleGlobals, cmd := none, fx := [] }), ?_, ?_, ?_, ?_⟩
  · decide
  · decide
  · decide
  · decide

end LinCli
